import Mathlib

/-!
Shallow embedding of `goworker.go` (package goworker): configuration
records, the lifecycle manager (`Init`/`Close`), connection acquisition
(`GetConn`/`getConn`), the configuration setters, and the sequential
skeleton of the orchestrator (`Work`).

Go `int` values are modelled as `Int`; Go slices as `List`; the global
mutable package state as an explicit `GlobalState` record threaded
through the functions.  Interactions with the resource pool
(`pool.Get`) are modelled by an oracle `checkout : Nat → PoolOutcome`
giving the outcome of the n-th checkout attempt of a call.
-/

namespace Goworker

/-- `RedisSettings` record from goworker.go (lines 49-58).  `Timeout` is a
`time.Duration`, modelled as nanoseconds. -/
structure RedisSettings where
  URI        : String
  Host       : String
  DB         : String
  Scheme     : String
  MasterName : String
  Sentinels  : List String
  Timeout    : Int
  Password   : String
deriving Repr, DecidableEq

/-- `WorkerSettings` record from goworker.go (lines 26-39).  `Queues` is a
`queuesFlag` (a string slice) and `Interval` an `intervalFlag`
(a duration), both defined outside src; they are modelled by their
underlying data. -/
structure WorkerSettings where
  QueuesString   : String
  Queues         : List String
  IntervalFloat  : Float
  Interval       : Int
  Concurrency    : Int
  Connections    : Int
  URI            : String
  Namespace      : String
  ExitOnComplete : Bool
  IsStrict       : Bool
  UseNumber      : Bool
  RedisSettings  : RedisSettings
deriving Repr

/-- A pooled connection handle.  The wrapped driver connection lives
outside src; the handle is modelled by an identity and by the answer
the liveness check gives for it. -/
structure RedisConn where
  id    : Nat
  valid : Bool
deriving Repr, DecidableEq

/-- Modelled from the spec: `validateConnection` (code outside src) runs "a
lightweight liveness validation" on a checked-out connection; the
modelled handle carries its answer. -/
def validateConnection (conn : RedisConn) : Bool :=
  conn.valid

/-- Modelled from the spec: `isSentinelConnection` (code outside src) decides
whether the store address is "Sentinel(master name, set of monitor
endpoints, ...)", i.e. whether monitor endpoints are configured. -/
def isSentinelConnection (ws : WorkerSettings) : Bool :=
  !ws.RedisSettings.Sentinels.isEmpty

/-- Outcome of one `pool.Get(ctx)` call inside `getConn`:
a `net.Error` whose `Timeout()` is true, any other error (carried
verbatim), or a checked-out resource. -/
inductive PoolOutcome where
  | timeoutErr : PoolOutcome
  | otherErr (e : String) : PoolOutcome
  | conn (c : RedisConn) : PoolOutcome
deriving Repr, DecidableEq

/-- Errors `getConn` can return: the `errors.New("Unable to get connection")`
of an exhausted budget, or a checkout error propagated unchanged. -/
inductive GetConnError where
  | unableToGetConnection : GetConnError
  | checkoutError (e : String) : GetConnError
deriving Repr, DecidableEq

/-- Result of a `getConn` call together with its observable effects:
how many `pool.Get` calls it made, which connection handles it closed,
and how many `pool.Put(nil)` discard signals it sent to the pool. -/
structure GetConnResult where
  result       : Except GetConnError RedisConn
  attemptsMade : Nat
  closed       : List Nat
  putNil       : Nat
deriving Repr

/-- `getConn` from goworker.go (lines 104-130): bounded-retry checkout.
`checkout n` is the outcome of the n-th `pool.Get` of the call,
`idx` the index of the next attempt. -/
def getConn (checkout : Nat → PoolOutcome) (idx : Nat)
    (attemptsLeft : Int) : GetConnResult :=
  if attemptsLeft ≤ 0 then
    ⟨.error .unableToGetConnection, 0, [], 0⟩
  else
    match checkout idx with
    | .timeoutErr =>
        let r := getConn checkout (idx + 1) (attemptsLeft - 1)
        ⟨r.result, r.attemptsMade + 1, r.closed, r.putNil⟩
    | .otherErr e =>
        ⟨.error (.checkoutError e), 1, [], 0⟩
    | .conn c =>
        if validateConnection c then
          ⟨.ok c, 1, [], 0⟩
        else
          let r := getConn checkout (idx + 1) (attemptsLeft - 1)
          ⟨r.result, r.attemptsMade + 1, c.id :: r.closed, r.putNil + 1⟩
termination_by attemptsLeft.toNat
decreasing_by all_goals omega

/-- `GetConn` from goworker.go (lines 94-102): computes the attempt budget
from the store-address mode and runs `getConn`. -/
def GetConn (ws : WorkerSettings) (checkout : Nat → PoolOutcome) :
    GetConnResult :=
  getConn checkout 0
    (if isSentinelConnection ws then ws.Connections + 1 else 1)

/-- The package-level mutable state of goworker.go (lines 17-24), with
observation counters for the pool's lifecycle: `poolSettings` records
the `RedisSettings` the live pool was built from (`none` before the
first `newRedisPool` call), `poolOpen` whether that pool is open, and
`poolBuilds`/`poolCloses` count the `newRedisPool`/`pool.Close` calls. -/
structure GlobalState where
  settings    : WorkerSettings
  initialized : Bool
  poolSettings : Option RedisSettings
  poolOpen    : Bool
  poolBuilds  : Nat
  poolCloses  : Nat
deriving Repr

/-- Environment for `Init`: whether the logger construction
(`seelog.LoggerFromWriterWithMinLevel`) and the `flags()` call (both
outside src) succeed. -/
structure InitEnv where
  loggerOk : Bool
  flagsOk  : Bool
deriving Repr, DecidableEq

/-- `SetSettings` from goworker.go (lines 41-43): replaces the whole
`workerSettings` record. -/
def SetSettings (s : WorkerSettings) (st : GlobalState) : GlobalState :=
  { st with settings := s }

/-- `SetRedisSettings` from goworker.go (lines 45-47): replaces only the
`RedisSettings` sub-record of `workerSettings`. -/
def SetRedisSettings (rs : RedisSettings) (st : GlobalState) : GlobalState :=
  { st with settings := { st.settings with RedisSettings := rs } }

/-- `Init` from goworker.go (lines 64-86).  The mutex serializes the
check-and-set; sequential calls are modelled directly.  Returns the
new state and `none` on success, or the error message. -/
def Init (env : InitEnv) (st : GlobalState) : GlobalState × Option String :=
  if st.initialized then
    (st, none)
  else if !env.loggerOk then
    (st, some "logger construction failed")
  else if !env.flagsOk then
    (st, some "flags failed")
  else
    let s1 :=
      if st.settings.URI ≠ "" then
        { st.settings with
            RedisSettings := { st.settings.RedisSettings with
                                 URI := st.settings.URI } }
      else st.settings
    ({ settings := s1
       initialized := true
       poolSettings := some s1.RedisSettings
       poolOpen := true
       poolBuilds := st.poolBuilds + 1
       poolCloses := st.poolCloses }, none)

/-- `Close` from goworker.go (lines 151-158): when initialized, closes the
pool and marks the process uninitialized; otherwise a no-op. -/
def Close (st : GlobalState) : GlobalState :=
  if st.initialized then
    { st with poolOpen := false
              poolCloses := st.poolCloses + 1
              initialized := false }
  else st

/-- Events of the sequential skeleton of `Work` (goworker.go lines
165-193).  `workerStarted id` is the `worker.work(jobs, &monitor)` call
of the worker with that identity, which registers the worker on the
shared completion barrier `monitor` and on the shared job stream
`jobs`; `barrierWait k` is the `monitor.Wait()` call, which by the
barrier's contract returns only once each of the `k` registered
workers has signaled completion; `returned` is the return of `Work`. -/
inductive WorkEvent where
  | workerStarted (id : String) : WorkEvent
  | barrierWait (k : Nat) : WorkEvent
  | returned : WorkEvent
deriving Repr, DecidableEq

/-- The worker-starting loop of `Work` (goworker.go lines 182-188):
`workerOk i` tells whether `newWorker(strconv.Itoa(i), ...)` succeeds.
Returns the `workerStarted` events emitted and the first construction
error, if any. -/
def startWorkers (workerOk : Nat → Bool) :
    Nat → Nat → List WorkEvent × Option String
  | _, 0 => ([], none)
  | i, n + 1 =>
      if workerOk i then
        let r := startWorkers workerOk (i + 1) n
        (.workerStarted (Nat.repr i) :: r.1, r.2)
      else
        ([], some "worker construction failed")

/-- Environment for `Work`: the `Init` environment plus whether
`newPoller` and each `newWorker` call (both outside src) succeed. -/
structure WorkEnv where
  initEnv  : InitEnv
  pollerOk : Bool
  workerOk : Nat → Bool

/-- `Work` from goworker.go (lines 165-193), sequential skeleton: runs
`Init` (returning its error directly on failure, before the deferred
`Close` is registered), builds the poller, starts one worker per
identity `0 ..< Concurrency`, blocks on the completion barrier, and
runs the deferred `Close` before returning.  Returns the final state,
the event trace, and the error, if any. -/
def Work (env : WorkEnv) (st : GlobalState) :
    GlobalState × List WorkEvent × Option String :=
  match Init env.initEnv st with
  | (st1, some e) => (st1, [.returned], some e)
  | (st1, none) =>
      if !env.pollerOk then
        (Close st1, [.returned], some "poller construction failed")
      else
        let r := startWorkers env.workerOk 0 st1.settings.Concurrency.toNat
        match r.2 with
        | some e => (Close st1, r.1 ++ [.returned], some e)
        | none =>
            (Close st1,
             r.1 ++ [.barrierWait r.1.length, .returned], none)

/-! ### Unfolding and bounding lemmas for `getConn` -/

/-- Exhausted budget: `attemptsLeft ≤ 0` returns the pool-exhausted error
at once, with no checkout. -/
theorem getConn_nonpos (checkout : Nat → PoolOutcome) (idx : Nat) (a : Int)
    (h : a ≤ 0) :
    getConn checkout idx a = ⟨.error .unableToGetConnection, 0, [], 0⟩ := by
  rw [getConn]
  simp [h]

/-- A checkout timing out consumes one attempt and retries. -/
theorem getConn_timeout_step (checkout : Nat → PoolOutcome) (idx : Nat)
    (a : Int) (ha : 0 < a) (hc : checkout idx = .timeoutErr) :
    getConn checkout idx a =
      ⟨(getConn checkout (idx + 1) (a - 1)).result,
       (getConn checkout (idx + 1) (a - 1)).attemptsMade + 1,
       (getConn checkout (idx + 1) (a - 1)).closed,
       (getConn checkout (idx + 1) (a - 1)).putNil⟩ := by
  rw [getConn]
  simp [hc, Int.not_le.mpr ha]

/-- A non-timeout checkout error is returned unchanged, with no retry. -/
theorem getConn_other_step (checkout : Nat → PoolOutcome) (idx : Nat)
    (a : Int) (e : String) (ha : 0 < a) (hc : checkout idx = .otherErr e) :
    getConn checkout idx a = ⟨.error (.checkoutError e), 1, [], 0⟩ := by
  rw [getConn]
  simp [hc, Int.not_le.mpr ha]

/-- A checked-out connection passing validation is returned. -/
theorem getConn_valid_step (checkout : Nat → PoolOutcome) (idx : Nat)
    (a : Int) (c : RedisConn) (ha : 0 < a) (hc : checkout idx = .conn c)
    (hv : validateConnection c = true) :
    getConn checkout idx a = ⟨.ok c, 1, [], 0⟩ := by
  rw [getConn]
  simp [hc, hv, Int.not_le.mpr ha]

/-- A checked-out connection failing validation is closed, a `nil` is put
back into the pool, one attempt is consumed, and the call retries. -/
theorem getConn_invalid_step (checkout : Nat → PoolOutcome) (idx : Nat)
    (a : Int) (c : RedisConn) (ha : 0 < a) (hc : checkout idx = .conn c)
    (hv : validateConnection c = false) :
    getConn checkout idx a =
      ⟨(getConn checkout (idx + 1) (a - 1)).result,
       (getConn checkout (idx + 1) (a - 1)).attemptsMade + 1,
       c.id :: (getConn checkout (idx + 1) (a - 1)).closed,
       (getConn checkout (idx + 1) (a - 1)).putNil + 1⟩ := by
  rw [getConn]
  simp [hc, hv, Int.not_le.mpr ha]

/-- The number of `pool.Get` calls never exceeds the initial budget. -/
theorem getConn_attempts_le (checkout : Nat → PoolOutcome) (idx : Nat)
    (a : Int) : (getConn checkout idx a).attemptsMade ≤ a.toNat := by
  induction idx, a using getConn.induct checkout with
  | case1 idx a h => rw [getConn]; simp [h]
  | case2 idx a h hc ih =>
      rw [getConn]
      simp only [if_neg h, hc]
      simp only at ih ⊢
      omega
  | case3 idx a h e hc =>
      rw [getConn]; simp only [if_neg h, hc]; omega
  | case4 idx a h c hc hv =>
      rw [getConn]; simp only [if_neg h, hc, if_pos hv]; omega
  | case5 idx a h c hc hv ih =>
      rw [getConn]
      simp only [if_neg h, hc, if_neg hv]
      simp only at ih ⊢
      omega

/-- Invariant I3: any connection `getConn` returns has passed validation. -/
theorem getConn_result_valid (checkout : Nat → PoolOutcome) (idx : Nat)
    (a : Int) (c : RedisConn)
    (h : (getConn checkout idx a).result = .ok c) :
    validateConnection c = true := by
  induction idx, a using getConn.induct checkout with
  | case1 idx a hle => rw [getConn] at h; simp [hle] at h
  | case2 idx a hle hc ih =>
      rw [getConn] at h
      simp only [if_neg hle, hc] at h
      exact ih h
  | case3 idx a hle e hc =>
      rw [getConn] at h; simp [if_neg hle, hc] at h
  | case4 idx a hle c2 hc hv =>
      rw [getConn] at h
      simp only [if_neg hle, hc, if_pos hv] at h
      cases h
      exact hv
  | case5 idx a hle c2 hc hv ih =>
      rw [getConn] at h
      simp only [if_neg hle, hc, if_neg hv] at h
      exact ih h

/-- Running through a prefix of `k` timed-out checkouts consumes exactly
`k` attempts and continues from attempt `idx + k` with budget `a - k`. -/
theorem getConn_timeout_run (checkout : Nat → PoolOutcome) (k : Nat) :
    ∀ (idx : Nat) (a : Int),
    (∀ i, i < k → checkout (idx + i) = .timeoutErr) → (k : Int) < a →
    getConn checkout idx a =
      ⟨(getConn checkout (idx + k) (a - k)).result,
       (getConn checkout (idx + k) (a - k)).attemptsMade + k,
       (getConn checkout (idx + k) (a - k)).closed,
       (getConn checkout (idx + k) (a - k)).putNil⟩ := by
  induction k with
  | zero => intro idx a _ _; simp
  | succ k ih =>
      intro idx a h hk
      have h0 : checkout idx = .timeoutErr := by simpa using h 0 (by omega)
      rw [getConn_timeout_step checkout idx a (by push_cast at hk; omega) h0]
      rw [ih (idx + 1) (a - 1)
          (fun i hi => by
            have hx := h (i + 1) (by omega)
            have e : idx + (i + 1) = idx + 1 + i := by omega
            rwa [e] at hx)
          (by push_cast at hk ⊢; omega)]
      have e1 : idx + 1 + k = idx + (k + 1) := by omega
      have e2 : a - 1 - (k : Int) = a - ((k + 1 : Nat) : Int) := by
        push_cast; ring
      rw [e1, e2]
      rfl

/-! ### Lifecycle and orchestrator lemmas -/

/-- `Init` on an already-initialized state is a successful no-op. -/
theorem Init_of_initialized (env : InitEnv) (st : GlobalState)
    (h : st.initialized = true) : Init env st = (st, none) := by
  rw [Init]
  simp [h]

/-- `Init` succeeds when the logger and flag steps succeed. -/
theorem Init_ok (env : InitEnv) (st : GlobalState)
    (hl : env.loggerOk = true) (hf : env.flagsOk = true) :
    (Init env st).2 = none := by
  rw [Init]
  split_ifs <;> simp_all

/-- A successful `Init` leaves the process initialized. -/
theorem Init_initialized (env : InitEnv) (st : GlobalState)
    (h : (Init env st).2 = none) : (Init env st).1.initialized = true := by
  rw [Init] at h ⊢
  split_ifs at h ⊢ <;> simp_all

/-- A first successful `Init` builds the pool exactly once. -/
theorem Init_poolBuilds (env : InitEnv) (st : GlobalState)
    (hinit : st.initialized = false)
    (hl : env.loggerOk = true) (hf : env.flagsOk = true) :
    (Init env st).1.poolBuilds = st.poolBuilds + 1 := by
  rw [Init]
  simp [hinit, hl, hf]

/-- `Init` never changes the configured concurrency. -/
theorem Init_settings_Concurrency (env : InitEnv) (st : GlobalState) :
    (Init env st).1.settings.Concurrency = st.settings.Concurrency := by
  rw [Init]
  split_ifs <;> simp

/-- `Close` always leaves the process uninitialized. -/
theorem Close_initialized (st : GlobalState) :
    (Close st).initialized = false := by
  rw [Close]
  split_ifs <;> simp_all

/-- A second `Close` is a no-op. -/
theorem Close_Close (st : GlobalState) : Close (Close st) = Close st := by
  conv_lhs => rw [Close]
  simp [Close_initialized]

/-- One `Close` call closes the pool at most once. -/
theorem Close_poolCloses (st : GlobalState) :
    (Close st).poolCloses ≤ st.poolCloses + 1 := by
  rw [Close]
  split_ifs <;> simp

/-- When every `newWorker` call succeeds, the worker loop starts one
worker per identity, in order. -/
theorem startWorkers_all_ok (workerOk : Nat → Bool)
    (h : ∀ i, workerOk i = true) :
    ∀ (n i : Nat), startWorkers workerOk i n =
      ((List.range' i n).map fun j => .workerStarted (Nat.repr j), none) := by
  intro n
  induction n with
  | zero => intro i; simp [startWorkers]
  | succ n ih =>
      intro i
      simp [startWorkers, h i, ih (i + 1), List.range'_succ]

/-! ### Concrete inputs used by the witnesses -/

/-- A direct (non-sentinel) store address. -/
def directRedis : RedisSettings :=
  ⟨"", "localhost:6379", "0", "redis", "", [], 0, ""⟩

/-- A sentinel store address with two monitor endpoints. -/
def sentinelRedis : RedisSettings :=
  ⟨"", "", "0", "redis", "mymaster", ["s1:26379", "s2:26379"], 500, "pw"⟩

/-- Settings of Scenario A: concurrency 3, queues a and b, interval 1s,
2 connections, direct address. -/
def wsDirect : WorkerSettings :=
  ⟨"a,b", ["a", "b"], 1.0, 1000000000, 3, 2, "", "resque:", false, false,
   false, directRedis⟩

/-- Settings of Scenario B: sentinel address, 5 connections. -/
def wsSentinel : WorkerSettings :=
  { wsDirect with Connections := 5, RedisSettings := sentinelRedis }

/-- Checkout oracle: five timeouts, then a valid connection. -/
def ckFailover : Nat → PoolOutcome :=
  fun i => if i < 5 then .timeoutErr else .conn ⟨1, true⟩

/-- Checkout oracle: always times out. -/
def ckTimeout : Nat → PoolOutcome :=
  fun _ => .timeoutErr

/-- Checkout oracle: an invalid connection first, then a valid one. -/
def ckInvalidFirst : Nat → PoolOutcome :=
  fun i => if i = 0 then .conn ⟨3, false⟩ else .conn ⟨4, true⟩

/-- Checkout oracle: a non-timeout error. -/
def ckAuthFail : Nat → PoolOutcome :=
  fun _ => .otherErr "auth failed"

/-- An `Init` environment in which logging and flag parsing succeed. -/
def envOk : InitEnv := ⟨true, true⟩

/-- A fresh, uninitialized process state with Scenario A settings. -/
def stFresh : GlobalState := ⟨wsDirect, false, none, false, 0, 0⟩

/-- Settings with a top-level URI and a stale URI in the sub-record. -/
def wsWithURI : WorkerSettings :=
  { wsDirect with
      URI := "redis://h:6379"
      RedisSettings := { directRedis with URI := "redis://old:6379" } }

/-- A fresh, uninitialized process state with `wsWithURI`. -/
def stWithURI : GlobalState := ⟨wsWithURI, false, none, false, 0, 0⟩

/-! ### Claim theorems -/

/-- Claim C3: `Init` and `Close` are idempotent: two sequential `Init`
calls both succeed and build the pool exactly once (the second returns
the state unchanged), and two sequential `Close` calls close the pool
at most once and leave the process uninitialized. -/
theorem claim_C3_idempotent_lifecycle (env : InitEnv) (st st0 : GlobalState)
    (hinit : st.initialized = false)
    (hl : env.loggerOk = true) (hf : env.flagsOk = true) :
    ((Init env st).2 = none ∧
     (Init env (Init env st).1).2 = none ∧
     (Init env (Init env st).1).1 = (Init env st).1 ∧
     (Init env st).1.poolBuilds = st.poolBuilds + 1 ∧
     (Init env (Init env st).1).1.poolBuilds = st.poolBuilds + 1) ∧
    ((Close (Close st0)).initialized = false ∧
     (Close (Close st0)).poolCloses ≤ st0.poolCloses + 1) := by
  have h1 : (Init env st).2 = none := Init_ok env st hl hf
  have h2 : (Init env st).1.initialized = true := Init_initialized env st h1
  have h3 := Init_of_initialized env (Init env st).1 h2
  have hb := Init_poolBuilds env st hinit hl hf
  refine ⟨⟨h1, by rw [h3], by rw [h3], hb, by rw [h3]; exact hb⟩, ?_, ?_⟩
  · exact Close_initialized _
  · rw [Close_Close]
    exact Close_poolCloses st0

/-- Claim C3 witness: the fresh Scenario A state. -/
theorem claim_C3_idempotent_lifecycle_witness :
    ((Init envOk stFresh).2 = none ∧
     (Init envOk (Init envOk stFresh).1).2 = none ∧
     (Init envOk (Init envOk stFresh).1).1 = (Init envOk stFresh).1 ∧
     (Init envOk stFresh).1.poolBuilds = stFresh.poolBuilds + 1 ∧
     (Init envOk (Init envOk stFresh).1).1.poolBuilds =
       stFresh.poolBuilds + 1) ∧
    ((Close (Close stFresh)).initialized = false ∧
     (Close (Close stFresh)).poolCloses ≤ stFresh.poolCloses + 1) :=
  claim_C3_idempotent_lifecycle envOk stFresh stFresh rfl rfl rfl

/-- Claim C8: `SetRedisSettings` replaces only the store-address
sub-record, leaving every other settings field unchanged, while
`SetSettings` replaces the whole settings record; both are total
assignments with no validation. -/
theorem claim_C8_setters_frame (rs : RedisSettings) (s : WorkerSettings)
    (st : GlobalState) :
    ((SetRedisSettings rs st).settings.RedisSettings = rs ∧
     (SetRedisSettings rs st).settings.QueuesString =
       st.settings.QueuesString ∧
     (SetRedisSettings rs st).settings.Queues = st.settings.Queues ∧
     (SetRedisSettings rs st).settings.IntervalFloat =
       st.settings.IntervalFloat ∧
     (SetRedisSettings rs st).settings.Interval = st.settings.Interval ∧
     (SetRedisSettings rs st).settings.Concurrency =
       st.settings.Concurrency ∧
     (SetRedisSettings rs st).settings.Connections =
       st.settings.Connections ∧
     (SetRedisSettings rs st).settings.URI = st.settings.URI ∧
     (SetRedisSettings rs st).settings.Namespace = st.settings.Namespace ∧
     (SetRedisSettings rs st).settings.ExitOnComplete =
       st.settings.ExitOnComplete ∧
     (SetRedisSettings rs st).settings.IsStrict = st.settings.IsStrict ∧
     (SetRedisSettings rs st).settings.UseNumber = st.settings.UseNumber) ∧
    (SetSettings s st).settings = s := by
  simp [SetRedisSettings, SetSettings]

/-- Claim C9: on the first successful `Init`, a non-empty top-level URI
overwrites `RedisSettings.URI` before the pool is built, so the pool is
created against the top-level URI regardless of the URI previously in
the sub-record. -/
theorem claim_C9_uri_override (env : InitEnv) (st : GlobalState)
    (hinit : st.initialized = false)
    (hl : env.loggerOk = true) (hf : env.flagsOk = true)
    (huri : st.settings.URI ≠ "") :
    (Init env st).2 = none ∧
    (Init env st).1.settings.RedisSettings.URI = st.settings.URI ∧
    (Init env st).1.poolSettings =
      some { st.settings.RedisSettings with URI := st.settings.URI } := by
  rw [Init]
  simp [hinit, hl, hf, huri]

/-- Claim C9 witness: top-level URI "redis://h:6379" supersedes the
stale sub-record URI "redis://old:6379". -/
theorem claim_C9_uri_override_witness :
    (Init envOk stWithURI).2 = none ∧
    (Init envOk stWithURI).1.settings.RedisSettings.URI =
      stWithURI.settings.URI ∧
    (Init envOk stWithURI).1.poolSettings =
      some { stWithURI.settings.RedisSettings with
               URI := stWithURI.settings.URI } :=
  claim_C9_uri_override envOk stWithURI rfl rfl rfl (by decide)

/-- A `Work` environment in which every construction step succeeds. -/
def envAllOk : WorkEnv := ⟨envOk, true, fun _ => true⟩

/-- A `Work` environment in which only `newWorker("0", ...)` succeeds:
the second worker's construction fails. -/
def envPartial : WorkEnv := ⟨envOk, true, fun i => decide (i = 0)⟩

/-- A fresh state with concurrency 2 and otherwise Scenario A settings. -/
def stConc2 : GlobalState :=
  ⟨{ wsDirect with Concurrency := 2 }, false, none, false, 0, 0⟩

/-- Claim C7: with concurrency N ≥ 1 and every construction succeeding,
`Work` starts exactly N workers whose identities are the decimal
strings "0" through "N−1", each registered (via `worker.work`) against
the shared job stream and the shared completion barrier, and then
blocks on the barrier sized to those N registrations. -/
theorem claim_C7_worker_identities (env : WorkEnv) (st : GlobalState)
    (n : Nat) (_hn : 1 ≤ n)
    (hl : env.initEnv.loggerOk = true) (hf : env.initEnv.flagsOk = true)
    (hp : env.pollerOk = true) (hw : ∀ i, env.workerOk i = true)
    (hconc : st.settings.Concurrency = (n : Int)) :
    (Work env st).2.1 =
      ((List.range n).map fun i => WorkEvent.workerStarted (Nat.repr i)) ++
        [.barrierWait n, .returned] ∧
    (Work env st).2.2 = none := by
  rcases hInit : Init env.initEnv st with ⟨st1, r⟩
  have hr : r = none := by
    have h := Init_ok env.initEnv st hl hf
    rw [hInit] at h
    exact h
  subst hr
  have hc : st1.settings.Concurrency = (n : Int) := by
    have h := Init_settings_Concurrency env.initEnv st
    rw [hInit] at h
    rw [h, hconc]
  have ht : st1.settings.Concurrency.toNat = n := by
    rw [hc]
    exact Int.toNat_natCast n
  simp only [Work, hInit, hp, Bool.not_true, Bool.false_eq_true, if_false,
    ht]
  rw [startWorkers_all_ok env.workerOk hw n 0]
  simp [List.range_eq_range']

/-- Claim C7 witness: Scenario A (concurrency 3) starts workers "0",
"1", "2" and waits on a barrier of 3. -/
theorem claim_C7_worker_identities_witness :
    (Work envAllOk stFresh).2.1 =
      ((List.range 3).map fun i => WorkEvent.workerStarted (Nat.repr i)) ++
        [.barrierWait 3, .returned] ∧
    (Work envAllOk stFresh).2.2 = none :=
  claim_C7_worker_identities envAllOk stFresh 3 (by omega) rfl rfl rfl
    (fun _ => rfl) rfl

/-- Claim C4 counterexample: with concurrency 2, the first worker
starting and the second worker's construction failing, `Work` returns
(event `returned`) with worker "0" started but without ever reaching
the completion barrier (`barrierWait` never occurs), so `Work` does
not wait for the started worker. -/
theorem claim_C4_counterexample :
    (Work envPartial stConc2).2 =
      ([.workerStarted "0", .returned], some "worker construction failed") ∧
    WorkEvent.barrierWait 1 ∉ (Work envPartial stConc2).2.1 := by
  constructor
  · rfl
  · decide

/-- Claim C4, amended: for every invocation of `Work` in which every
worker construction succeeds, the event trace consists of the started
workers followed by a wait on the completion barrier sized to exactly
the started workers, followed by the return — so `Work` returns only
after every started worker has signaled the barrier. -/
theorem claim_C4_graceful_shutdown (env : WorkEnv) (st : GlobalState)
    (hl : env.initEnv.loggerOk = true) (hf : env.initEnv.flagsOk = true)
    (hp : env.pollerOk = true) (hw : ∀ i, env.workerOk i = true) :
    ∃ started : List WorkEvent,
      (Work env st).2.1 =
        started ++ [.barrierWait started.length, .returned] ∧
      ∀ e ∈ started, ∃ id, e = WorkEvent.workerStarted id := by
  rcases hInit : Init env.initEnv st with ⟨st1, r⟩
  have hr : r = none := by
    have h := Init_ok env.initEnv st hl hf
    rw [hInit] at h
    exact h
  subst hr
  refine ⟨(List.range' 0 st1.settings.Concurrency.toNat).map
      fun j => WorkEvent.workerStarted (Nat.repr j), ?_, ?_⟩
  · simp only [Work, hInit, hp, Bool.not_true, Bool.false_eq_true,
      if_false]
    rw [startWorkers_all_ok env.workerOk hw st1.settings.Concurrency.toNat
      0]
  · intro e he
    rcases List.mem_map.mp he with ⟨j, _, rfl⟩
    exact ⟨Nat.repr j, rfl⟩

/-- Claim C4 witness: the all-constructions-succeed environment on the
fresh Scenario A state. -/
theorem claim_C4_graceful_shutdown_witness :
    ∃ started : List WorkEvent,
      (Work envAllOk stFresh).2.1 =
        started ++ [.barrierWait started.length, .returned] ∧
      ∀ e ∈ started, ∃ id, e = WorkEvent.workerStarted id :=
  claim_C4_graceful_shutdown envAllOk stFresh rfl rfl rfl (fun _ => rfl)

/-- Claim C1: for every sentinel store address and configured connection
count C, `GetConn` makes at most C+1 checkout attempts; if the first C
attempts each time out and attempt C+1 returns a connection that passes
validation, `GetConn` returns that connection. -/
theorem claim_C1_sentinel_budget (ws : WorkerSettings) (C : Nat)
    (checkout : Nat → PoolOutcome) (c : RedisConn)
    (hsent : isSentinelConnection ws = true)
    (hC : ws.Connections = (C : Int))
    (htimeout : ∀ i, i < C → checkout i = .timeoutErr)
    (hsucc : checkout C = .conn c)
    (hvalid : validateConnection c = true) :
    GetConn ws checkout = ⟨.ok c, C + 1, [], 0⟩ ∧
    ∀ checkout2 : Nat → PoolOutcome,
      (GetConn ws checkout2).attemptsMade ≤ C + 1 := by
  constructor
  · rw [GetConn, hsent, if_pos rfl, hC]
    rw [getConn_timeout_run checkout C 0 ((C : Int) + 1)
        (fun i hi => by simpa using htimeout i hi)
        (by omega)]
    have hstep : getConn checkout (0 + C) ((C : Int) + 1 - (C : Int)) =
        ⟨.ok c, 1, [], 0⟩ := by
      rw [getConn_valid_step checkout (0 + C) ((C : Int) + 1 - (C : Int)) c
          (by omega) (by simpa using hsucc) hvalid]
    rw [hstep]
    simp [Nat.add_comm]
  · intro checkout2
    rw [GetConn, hsent, if_pos rfl, hC]
    have h := getConn_attempts_le checkout2 0 ((C : Int) + 1)
    omega

/-- Claim C1 witness: sentinel address with connections = 5, five
timeouts then a valid connection on attempt 6. -/
theorem claim_C1_sentinel_budget_witness :
    GetConn wsSentinel ckFailover = ⟨.ok ⟨1, true⟩, 6, [], 0⟩ ∧
    ∀ checkout2 : Nat → PoolOutcome,
      (GetConn wsSentinel checkout2).attemptsMade ≤ 6 :=
  claim_C1_sentinel_budget wsSentinel 5 ckFailover ⟨1, true⟩ rfl rfl
    (fun i hi => by simp [ckFailover, hi]) (by norm_num [ckFailover]) rfl

/-- Claim C2: for every non-sentinel store address and connection count,
`GetConn` makes at most one checkout attempt; if that attempt times out,
`GetConn` fails with the pool-exhausted error and makes no further
attempt. -/
theorem claim_C2_direct_budget (ws : WorkerSettings)
    (checkout : Nat → PoolOutcome)
    (hns : isSentinelConnection ws = false)
    (ht : checkout 0 = .timeoutErr) :
    GetConn ws checkout = ⟨.error .unableToGetConnection, 1, [], 0⟩ ∧
    ∀ checkout2 : Nat → PoolOutcome,
      (GetConn ws checkout2).attemptsMade ≤ 1 := by
  constructor
  · rw [GetConn, hns]
    simp only [Bool.false_eq_true, if_false]
    rw [getConn_timeout_step checkout 0 1 (by omega) ht]
    rw [getConn_nonpos checkout (0 + 1) (1 - 1) (by omega)]
  · intro checkout2
    rw [GetConn, hns]
    simp only [Bool.false_eq_true, if_false]
    exact getConn_attempts_le checkout2 0 1

/-- Claim C2 witness: direct address, a timeout on the single attempt. -/
theorem claim_C2_direct_budget_witness :
    GetConn wsDirect ckTimeout = ⟨.error .unableToGetConnection, 1, [], 0⟩ ∧
    ∀ checkout2 : Nat → PoolOutcome,
      (GetConn wsDirect checkout2).attemptsMade ≤ 1 :=
  claim_C2_direct_budget wsDirect ckTimeout rfl rfl

/-- Claim C5: a checkout returning a connection that fails validation is
never returned to the caller; `getConn` closes its handle, puts `nil`
back into the pool, consumes exactly one unit of the attempt budget,
and retries. -/
theorem claim_C5_invalid_discard (checkout : Nat → PoolOutcome)
    (idx : Nat) (a : Int) (c : RedisConn) (ha : 0 < a)
    (hc : checkout idx = .conn c) (hv : validateConnection c = false) :
    (getConn checkout idx a).result ≠ .ok c ∧
    getConn checkout idx a =
      ⟨(getConn checkout (idx + 1) (a - 1)).result,
       (getConn checkout (idx + 1) (a - 1)).attemptsMade + 1,
       c.id :: (getConn checkout (idx + 1) (a - 1)).closed,
       (getConn checkout (idx + 1) (a - 1)).putNil + 1⟩ := by
  refine ⟨?_, getConn_invalid_step checkout idx a c ha hc hv⟩
  intro hok
  have := getConn_result_valid checkout idx a c hok
  rw [hv] at this
  exact Bool.false_ne_true this

/-- Claim C5 witness: the invalid connection `⟨3, false⟩` checked out
first is discarded, never returned. -/
theorem claim_C5_invalid_discard_witness :
    (getConn ckInvalidFirst 0 2).result ≠ .ok ⟨3, false⟩ ∧
    getConn ckInvalidFirst 0 2 =
      ⟨(getConn ckInvalidFirst (0 + 1) (2 - 1)).result,
       (getConn ckInvalidFirst (0 + 1) (2 - 1)).attemptsMade + 1,
       3 :: (getConn ckInvalidFirst (0 + 1) (2 - 1)).closed,
       (getConn ckInvalidFirst (0 + 1) (2 - 1)).putNil + 1⟩ :=
  claim_C5_invalid_discard ckInvalidFirst 0 2 ⟨3, false⟩ (by omega) rfl rfl

/-- Claim C6: a checkout error that is not a network timeout makes
`getConn` fail immediately, with the error propagated unchanged, no
further attempt, for every remaining attempt budget. -/
theorem claim_C6_nontimeout_error (checkout : Nat → PoolOutcome)
    (idx : Nat) (a : Int) (e : String) (ha : 0 < a)
    (hc : checkout idx = .otherErr e) :
    getConn checkout idx a = ⟨.error (.checkoutError e), 1, [], 0⟩ :=
  getConn_other_step checkout idx a e ha hc

/-- Claim C6 witness: an authentication failure with budget 6 surfaces
immediately after a single attempt. -/
theorem claim_C6_nontimeout_error_witness :
    getConn ckAuthFail 0 6 =
      ⟨.error (.checkoutError "auth failed"), 1, [], 0⟩ :=
  claim_C6_nontimeout_error ckAuthFail 0 6 "auth failed" (by omega) rfl

/-- Claim C10: the retry loop of `getConn` terminates (it is a total
function defined by recursion on the attempts-left counter, which each
recursive call strictly decreases); it returns an error as soon as the
counter is ≤ 0, and performs at most `budget` checkout attempts. -/
theorem claim_C10_termination (checkout : Nat → PoolOutcome) (idx : Nat)
    (a : Int) :
    (getConn checkout idx a).attemptsMade ≤ a.toNat ∧
    (a ≤ 0 →
      getConn checkout idx a = ⟨.error .unableToGetConnection, 0, [], 0⟩) :=
  ⟨getConn_attempts_le checkout idx a, getConn_nonpos checkout idx a⟩

/-- Claim C10 witness: the bound at budget 3 and the immediate error at
budget −2. -/
theorem claim_C10_termination_witness :
    (getConn ckFailover 0 3).attemptsMade ≤ (3 : Int).toNat ∧
    getConn ckFailover 7 (-2) =
      ⟨.error .unableToGetConnection, 0, [], 0⟩ :=
  ⟨(claim_C10_termination ckFailover 0 3).1,
   (claim_C10_termination ckFailover 7 (-2)).2 (by omega)⟩

end Goworker
